import Mathlib

/-!
Shallow embedding of the AYCF trip-planner scoring engine (`src/planner.py`)
and proofs about its specification.

Modelling conventions:

* A row of the loaded pandas frame is a `RouteRecord`; its `run_ts` column is
  `Option Int` (a POSIX-style timestamp in seconds, `none` standing for `NaT`,
  the result of the best-effort `_safe_parse_dt`).  `pd.Timedelta(days = d)`
  is `d * 86400` seconds.
* `datetime.now()` is passed explicitly as a `now : Int` parameter: the Python
  code re-derives the cutoff from the wall clock at call time, so the clock is
  an input of the function being modelled.
* Python float arithmetic on the score column is embedded as exact rational
  (`ℚ`) arithmetic; the decimal weights 1.2 / 0.8 / 0.3 are exact tenths, so
  on integer leg counts the rational value is the intended value of the float
  expression.  Internally the pipeline sorts by `scoreTenths`, the score
  multiplied by ten as a natural number; `suggestionScore_le_iff` proves this
  order is exactly the order of the rational scores.
* `pandas.sort_values` (quicksort, order among ties unspecified) is embedded
  as Mathlib's `insertionSort`; every claim about order only concerns the
  score order and determinism, never the tie order, which both the code and
  the spec leave unspecified.
* `groupby(["departure_from", "departure_to"]).size()` is embedded as counting
  occurrences of each distinct pair; the group keys are enumerated in first
  occurrence order (pandas sorts them lexicographically — again only a
  permutation of rows that later sorting does not pin down).
-/

/-- Python `str.strip()` : drop leading and trailing whitespace. -/
def pyStrip (s : String) : String :=
  ⟨((s.data.dropWhile Char.isWhitespace).reverse.dropWhile Char.isWhitespace).reverse⟩

/-- Table `CITY_ALIASES` from `planner.py`: UI-friendly labels → dataset city names. -/
def CITY_ALIASES : List (String × String) :=
  [("London Luton", "London"), ("London (Luton)", "London")]

/-- Function `normalise_city` from `planner.py`: strip, then apply the alias table. -/
def normalise_city (name : String) : String :=
  let name := pyStrip name
  match CITY_ALIASES.lookup name with
  | some v => v
  | none => name

/-- One row of the loaded frame (after `_load_runs`):
`departure_from`, `departure_to` and the parsed `run_ts` column. -/
structure RouteRecord where
  departure_from : String
  departure_to : String
  run_ts : Option Int
deriving DecidableEq

/-- One row of the aggregated counts frame produced by `route_counts`. -/
structure CountRow where
  departure_from : String
  departure_to : String
  appearances : Nat
deriving DecidableEq

/-- Embedding of `AYCFPlanner._filter_by_lookback`: keep a row iff `run_ts` is NaT or
`run_ts >= now - Timedelta(days = lookback_days)`. -/
def filter_by_lookback (df : List RouteRecord) (now : Int) (lookback_days : Nat) :
    List RouteRecord :=
  let cutoff : Int := now - (lookback_days : Int) * 86400
  df.filter fun r =>
    match r.run_ts with
    | none => true
    | some t => decide (cutoff ≤ t)

/-- The distinct (departure_from, departure_to) group keys of a frame, in first
occurrence order. -/
def pairKeys (df : List RouteRecord) : List (String × String) :=
  (df.map fun r => (r.departure_from, r.departure_to)).foldl
    (fun acc k => if k ∈ acc then acc else acc ++ [k]) []

/-- Embedding of `AYCFPlanner.route_counts` given the already-loaded frame: lookback filter,
group by (departure_from, departure_to) with `size()`, then
`sort_values("appearances", ascending=False)`. -/
def route_counts (records : List RouteRecord) (now : Int) (lookback_days : Nat) :
    List CountRow :=
  let df := filter_by_lookback records now lookback_days
  let counts := (pairKeys df).map fun k =>
    CountRow.mk k.1 k.2
      (df.countP fun r => decide (r.departure_from = k.1 ∧ r.departure_to = k.2))
  List.insertionSort (fun a b : CountRow => b.appearances ≤ a.appearances) counts

/-- The normalised selection set built at the top of `suggest_itineraries`:
`set([normalise_city(b) for b in bases if str(b).strip()])` (membership in the
list plays the role of membership in the Python set). -/
def normSet (l : List String) : List String :=
  (l.filter fun s => decide (pyStrip s ≠ "")).map normalise_city

/-- A row of the leg-1 ∩ leg-2 inner join (`merged` after line 178). -/
structure Row12 where
  base : String
  hub : String
  target : String
  base_to_hub : Nat
  hub_to_target : Nat
deriving DecidableEq

/-- A row of `merged` after the leg-3 left join and its fills (lines 191-193). -/
structure Row3 where
  base : String
  hub : String
  target : String
  return_hub : String
  base_to_hub : Nat
  hub_to_target : Nat
  target_to_hub : Nat
deriving DecidableEq

/-- A row of `merged` after the leg-4 left join and its fill (lines 202-203). -/
structure Row4 where
  base : String
  hub : String
  target : String
  return_hub : String
  base_to_hub : Nat
  hub_to_target : Nat
  target_to_hub : Nat
  hub_to_base : Nat
deriving DecidableEq

/-- Frame `bh`: counts filtered to `departure_from ∈ bases ∧ departure_to ∈ hubs`. -/
def legBaseHub (counts : List CountRow) (bases_set hubs_set : List String) :
    List CountRow :=
  counts.filter fun c =>
    decide (c.departure_from ∈ bases_set) && decide (c.departure_to ∈ hubs_set)

/-- Frame `ht`: counts filtered to `departure_from ∈ hubs ∧ departure_to ∈ targets`. -/
def legHubTarget (counts : List CountRow) (hubs_set targets_set : List String) :
    List CountRow :=
  counts.filter fun c =>
    decide (c.departure_from ∈ hubs_set) && decide (c.departure_to ∈ targets_set)

/-- Frame `th`: counts filtered to `departure_from ∈ targets ∧ departure_to ∈ hubs`. -/
def legTargetHub (counts : List CountRow) (targets_set hubs_set : List String) :
    List CountRow :=
  counts.filter fun c =>
    decide (c.departure_from ∈ targets_set) && decide (c.departure_to ∈ hubs_set)

/-- Frame `hb`: counts filtered to `departure_from ∈ hubs ∧ departure_to ∈ bases`. -/
def legHubBase (counts : List CountRow) (hubs_set bases_set : List String) :
    List CountRow :=
  counts.filter fun c =>
    decide (c.departure_from ∈ hubs_set) && decide (c.departure_to ∈ bases_set)

/-- Join `merged = bh.merge(ht, on="hub", how="inner")`: every pair of a `bh` row
and an `ht` row that agree on the hub. -/
def mergedBHT (counts : List CountRow) (bases_set hubs_set targets_set : List String) :
    List Row12 :=
  (legBaseHub counts bases_set hubs_set).flatMap fun b =>
    ((legHubTarget counts hubs_set targets_set).filter fun h =>
        decide (h.departure_from = b.departure_to)).map fun h =>
      Row12.mk b.departure_from b.departure_to h.departure_to
        b.appearances h.appearances

/-- Join `merged.merge(th, on="target", how="left")` followed by
`fillna(0)` on `target_to_hub` and `return_hub.fillna(hub)`: a row per
matching `th` row, or a single default-filled row when there is no match. -/
def merged3Rows (counts : List CountRow) (bases_set hubs_set targets_set : List String) :
    List Row3 :=
  (mergedBHT counts bases_set hubs_set targets_set).flatMap fun m =>
    let ms := (legTargetHub counts targets_set hubs_set).filter fun c =>
      decide (c.departure_from = m.target)
    if ms.isEmpty then
      [Row3.mk m.base m.hub m.target m.hub m.base_to_hub m.hub_to_target 0]
    else
      ms.map fun c =>
        Row3.mk m.base m.hub m.target c.departure_to
          m.base_to_hub m.hub_to_target c.appearances

/-- Join `merged.merge(hb, on=["return_hub", "base"], how="left")` followed by
`fillna(0)` on `hub_to_base`. -/
def merged4Rows (counts : List CountRow) (bases_set hubs_set targets_set : List String) :
    List Row4 :=
  (merged3Rows counts bases_set hubs_set targets_set).flatMap fun m =>
    let ms := (legHubBase counts hubs_set bases_set).filter fun c =>
      decide (c.departure_from = m.return_hub) && decide (c.departure_to = m.base)
    if ms.isEmpty then
      [Row4.mk m.base m.hub m.target m.return_hub
        m.base_to_hub m.hub_to_target m.target_to_hub 0]
    else
      ms.map fun c =>
        Row4.mk m.base m.hub m.target m.return_hub
          m.base_to_hub m.hub_to_target m.target_to_hub c.appearances

/-- The candidates surviving line 205-206:
`if require_return_to_base: merged = merged[merged["hub_to_base"] > 0]`. -/
def qualifiedRows (counts : List CountRow) (bases_set hubs_set targets_set : List String)
    (require_return_to_base : Bool) : List Row4 :=
  if require_return_to_base then
    (merged4Rows counts bases_set hubs_set targets_set).filter fun r =>
      decide (0 < r.hub_to_base)
  else
    merged4Rows counts bases_set hubs_set targets_set

/-- Ten times the score of a candidate row, as a natural number — the
kernel-computable sort key (the weights 1, 1, 1.2 and 0.8 / 0.3 are all exact
tenths). -/
def scoreTenths (require_return_to_base : Bool) (r : Row4) : Nat :=
  10 * r.base_to_hub + 10 * r.hub_to_target + 12 * r.target_to_hub
    + (if require_return_to_base then 8 else 3) * r.hub_to_base

/-- The score column of lines 212-217, as an exact rational:
`base_to_hub + hub_to_target + 1.2 * target_to_hub
 + (0.8 if require_return_to_base else 0.3) * hub_to_base`. -/
def suggestionScore (require_return_to_base : Bool) (r : Row4) : ℚ :=
  (r.base_to_hub : ℚ) + (r.hub_to_target : ℚ) + 1.2 * (r.target_to_hub : ℚ)
    + (if require_return_to_base then 0.8 * (r.hub_to_base : ℚ)
       else 0.3 * (r.hub_to_base : ℚ))

/-- The `Suggestion` dataclass of `planner.py`. -/
structure Suggestion where
  base : String
  hub : String
  target : String
  return_hub : String
  base_to_hub_freq : Nat
  hub_to_target_freq : Nat
  target_to_return_hub_freq : Nat
  return_hub_to_base_freq : Nat
  score : ℚ

/-- Building a `Suggestion` from a row of the final frame (lines 222-233). -/
def mkSuggestion (require_return_to_base : Bool) (r : Row4) : Suggestion :=
  Suggestion.mk r.base r.hub r.target r.return_hub
    r.base_to_hub r.hub_to_target r.target_to_hub r.hub_to_base
    (suggestionScore require_return_to_base r)

/-- Embedding of `AYCFPlanner.suggest_itineraries`, over the already-loaded corpus
`records` and the explicit clock `now`.  `min_transfer_minutes`, `start_date`
and `end_date` appear in the Python signature but are never read by the body;
they are kept here for the same reason. -/
def suggest_itineraries (records : List RouteRecord) (now : Int)
    (lookback_days : Nat) (min_transfer_minutes : Int)
    (start_date end_date : Option String)
    (bases hubs targets : List String)
    (require_return_to_base : Bool) (top_n : Nat) : List Suggestion :=
  let counts := route_counts records now lookback_days
  let bases_set := normSet bases
  let hubs_set := normSet hubs
  let targets_set := normSet targets
  if (mergedBHT counts bases_set hubs_set targets_set).isEmpty then []
  else
    ((List.insertionSort
        (fun a b : Row4 =>
          scoreTenths require_return_to_base b ≤ scoreTenths require_return_to_base a)
        (qualifiedRows counts bases_set hubs_set targets_set require_return_to_base)).take
      top_n).map (mkSuggestion require_return_to_base)

/-- The two fatal errors of `_load_runs`: `FileNotFoundError` ("NoDataFound")
and `ValueError` ("SchemaMismatch"). -/
inductive LoadError where
  | noDataFound : LoadError
  | schemaMismatch : LoadError
deriving DecidableEq

/-- Constant `REQUIRED_COLS` from `planner.py`. -/
def REQUIRED_COLS : List String := ["departure_from", "departure_to"]

/-- One successfully parsed CSV file: its column names and its rows (rows
already carry the parsed, possibly-NaT `run_ts` produced by the best-effort
`_safe_parse_dt` normalisation of lines 88-93). -/
structure RawFrame where
  cols : List String
  rows : List RouteRecord
deriving DecidableEq

/-- One CSV file on disk, as `pd.read_csv` sees it: `none` models a file on
which `read_csv` (or the per-file processing) raises, `some f` a parsed frame. -/
abbrev SourceFile := Option RawFrame

/-- Check `REQUIRED_COLS.issubset(df.columns)`. -/
def hasRequiredCols (f : RawFrame) : Bool :=
  REQUIRED_COLS.all fun c => decide (c ∈ f.cols)

/-- The frames accumulated by the loop of `_load_runs` (lines 79-96): a file
that raises or lacks the required columns is silently skipped. -/
def usableFrames (files : List SourceFile) : List RawFrame :=
  files.filterMap fun o =>
    match o with
    | none => none
    | some f => if hasRequiredCols f then some f else none

/-- City normalisation applied to a concatenated row (lines 104-105):
`astype(str).str.strip().apply(normalise_city)` on both route columns. -/
def normaliseRecord (r : RouteRecord) : RouteRecord :=
  RouteRecord.mk (normalise_city (pyStrip r.departure_from))
    (normalise_city (pyStrip r.departure_to)) r.run_ts

/-- Embedding of `AYCFPlanner._load_runs` over the directory's CSV files: raise
`NoDataFound` when there is no file at all, otherwise collect the usable
frames, raise `SchemaMismatch` when none is usable, otherwise concatenate and
normalise. -/
def load_runs (files : List SourceFile) : Except LoadError (List RouteRecord) :=
  if files.isEmpty then .error .noDataFound
  else
    let frames := usableFrames files
    if frames.isEmpty then .error .schemaMismatch
    else .ok (((frames.map RawFrame.rows).flatten).map normaliseRecord)

/-! ### Example corpora used by the spec's worked examples -/

/-- Raw pairs `[("A","H",day1), ("H","T",day1), ("T","H",day2), ("H","A",day3)]`
with day1 = 0 s, day2 = 86400 s, day3 = 172800 s. -/
def recs1 : List RouteRecord :=
  [RouteRecord.mk "A" "H" (some 0), RouteRecord.mk "H" "T" (some 0),
   RouteRecord.mk "T" "H" (some 86400), RouteRecord.mk "H" "A" (some 172800)]

/-- The same corpus without the `("H","A")` record. -/
def recs2 : List RouteRecord :=
  [RouteRecord.mk "A" "H" (some 0), RouteRecord.mk "H" "T" (some 0),
   RouteRecord.mk "T" "H" (some 86400)]

/-- A corpus where target `T` has observed returns to two different hubs:
once to `H1` and twice to `H2`. -/
def recs3 : List RouteRecord :=
  [RouteRecord.mk "A" "H1" (some 0), RouteRecord.mk "H1" "T" (some 0),
   RouteRecord.mk "T" "H1" (some 0), RouteRecord.mk "T" "H2" (some 0),
   RouteRecord.mk "T" "H2" (some 86400)]

/-- The worked example of the spec: `recs1`, requireReturnToBase = true. -/
lemma suggest_recs1_eq :
    suggest_itineraries recs1 172800 30 0 none none ["A"] ["H"] ["T"] true 25
      = [mkSuggestion true (Row4.mk "A" "H" "T" "H" 1 1 1 1)] := rfl

/-- The second worked example: `recs2`, requireReturnToBase = false. -/
lemma suggest_recs2_eq :
    suggest_itineraries recs2 172800 30 0 none none ["A"] ["H"] ["T"] false 25
      = [mkSuggestion false (Row4.mk "A" "H" "T" "H" 1 1 1 0)] := rfl

/-! ### Support lemmas -/

/-- The rational score is the integer tenths divided by ten. -/
lemma suggestionScore_eq_tenths (rrb : Bool) (r : Row4) :
    suggestionScore rrb r = (scoreTenths rrb r : ℚ) / 10 := by
  cases rrb <;> simp only [suggestionScore, scoreTenths, if_true, if_false] <;>
    push_cast <;> norm_num <;> ring

/-- Sorting by integer tenths is sorting by the rational score. -/
lemma suggestionScore_le_iff (rrb : Bool) (a b : Row4) :
    suggestionScore rrb a ≤ suggestionScore rrb b ↔
      scoreTenths rrb a ≤ scoreTenths rrb b := by
  rw [suggestionScore_eq_tenths, suggestionScore_eq_tenths,
    div_le_div_iff_of_pos_right (by norm_num : (0:ℚ) < 10), Nat.cast_le]

/-- Every element of the result is `mkSuggestion` of a qualifying row. -/
lemma mem_suggest_itineraries {records : List RouteRecord} {now : Int}
    {lookback_days : Nat} {min_transfer_minutes : Int}
    {start_date end_date : Option String} {bases hubs targets : List String}
    {require_return_to_base : Bool} {top_n : Nat} {s : Suggestion}
    (h : s ∈ suggest_itineraries records now lookback_days min_transfer_minutes
          start_date end_date bases hubs targets require_return_to_base top_n) :
    ∃ r ∈ qualifiedRows (route_counts records now lookback_days)
        (normSet bases) (normSet hubs) (normSet targets) require_return_to_base,
      s = mkSuggestion require_return_to_base r := by
  simp only [suggest_itineraries] at h
  split at h
  · exact absurd h (List.not_mem_nil s)
  · obtain ⟨r, hr, rfl⟩ := List.mem_map.mp h
    exact ⟨r, ((List.perm_insertionSort _ _).mem_iff).mp (List.mem_of_mem_take hr),
      rfl⟩

/-! ### Claims -/

/-- C1: every candidate returned by `suggest_itineraries` has
`score = base_to_hub + hub_to_target + 1.2 * target_to_hub
 + (0.8 if require_return_to_base else 0.3) * hub_to_base`; and on the raw
pairs `[("A","H",day1), ("H","T",day1), ("T","H",day2), ("H","A",day3)]` with
bases = {A}, hubs = {H}, targets = {T}, requireReturnToBase = true and a
lookback covering all days, the single candidate has leg counts (1,1,1,1) and
score 4.0. -/
theorem claim1_score_formula :
    (∀ (records : List RouteRecord) (now : Int) (lookback_days : Nat)
        (min_transfer_minutes : Int) (start_date end_date : Option String)
        (bases hubs targets : List String) (require_return_to_base : Bool)
        (top_n : Nat) (s : Suggestion),
        s ∈ suggest_itineraries records now lookback_days min_transfer_minutes
              start_date end_date bases hubs targets require_return_to_base top_n →
        s.score = (s.base_to_hub_freq : ℚ) + (s.hub_to_target_freq : ℚ)
            + 1.2 * (s.target_to_return_hub_freq : ℚ)
            + (if require_return_to_base then (0.8 : ℚ) else (0.3 : ℚ))
              * (s.return_hub_to_base_freq : ℚ))
    ∧ suggest_itineraries recs1 172800 30 0 none none ["A"] ["H"] ["T"] true 25
        = [mkSuggestion true (Row4.mk "A" "H" "T" "H" 1 1 1 1)]
    ∧ (mkSuggestion true (Row4.mk "A" "H" "T" "H" 1 1 1 1)).base_to_hub_freq = 1
    ∧ (mkSuggestion true (Row4.mk "A" "H" "T" "H" 1 1 1 1)).hub_to_target_freq = 1
    ∧ (mkSuggestion true (Row4.mk "A" "H" "T" "H" 1 1 1 1)).target_to_return_hub_freq = 1
    ∧ (mkSuggestion true (Row4.mk "A" "H" "T" "H" 1 1 1 1)).return_hub_to_base_freq = 1
    ∧ (mkSuggestion true (Row4.mk "A" "H" "T" "H" 1 1 1 1)).score = 4 := by
  refine ⟨?_, suggest_recs1_eq, rfl, rfl, rfl, rfl, ?_⟩
  · intro records now lookback mtm sd ed bases hubs targets rrb top_n s h
    obtain ⟨r, _, rfl⟩ := mem_suggest_itineraries h
    cases rrb <;> simp [mkSuggestion, suggestionScore]
  · norm_num [mkSuggestion, suggestionScore]

/-- C1 witness: the universal part of `claim1_score_formula` instantiated on
the worked example. -/
theorem claim1_score_formula_witness :
    (mkSuggestion true (Row4.mk "A" "H" "T" "H" 1 1 1 1))
      ∈ suggest_itineraries recs1 172800 30 0 none none ["A"] ["H"] ["T"] true 25
    ∧ (mkSuggestion true (Row4.mk "A" "H" "T" "H" 1 1 1 1)).score
        = ((mkSuggestion true (Row4.mk "A" "H" "T" "H" 1 1 1 1)).base_to_hub_freq : ℚ)
          + ((mkSuggestion true (Row4.mk "A" "H" "T" "H" 1 1 1 1)).hub_to_target_freq : ℚ)
          + 1.2 * ((mkSuggestion true (Row4.mk "A" "H" "T" "H" 1 1 1 1)).target_to_return_hub_freq : ℚ)
          + (if true then (0.8 : ℚ) else (0.3 : ℚ))
            * ((mkSuggestion true (Row4.mk "A" "H" "T" "H" 1 1 1 1)).return_hub_to_base_freq : ℚ) := by
  have hmem : (mkSuggestion true (Row4.mk "A" "H" "T" "H" 1 1 1 1))
      ∈ suggest_itineraries recs1 172800 30 0 none none ["A"] ["H"] ["T"] true 25 := by
    rw [suggest_recs1_eq]; exact List.mem_singleton_self _
  exact ⟨hmem, claim1_score_formula.1 recs1 172800 30 0 none none
    ["A"] ["H"] ["T"] true 25 _ hmem⟩

/-- C3: with `require_return_to_base = true` every returned candidate has a
strictly positive return-hub→base count; with it false, a candidate with that
count equal to 0 may appear (the `recs2` example). -/
theorem claim3_return_to_base_filter :
    (∀ (records : List RouteRecord) (now : Int) (lookback_days : Nat)
        (min_transfer_minutes : Int) (start_date end_date : Option String)
        (bases hubs targets : List String) (top_n : Nat) (s : Suggestion),
        s ∈ suggest_itineraries records now lookback_days min_transfer_minutes
              start_date end_date bases hubs targets true top_n →
        0 < s.return_hub_to_base_freq)
    ∧ (mkSuggestion false (Row4.mk "A" "H" "T" "H" 1 1 1 0))
        ∈ suggest_itineraries recs2 172800 30 0 none none ["A"] ["H"] ["T"] false 25
    ∧ (mkSuggestion false (Row4.mk "A" "H" "T" "H" 1 1 1 0)).return_hub_to_base_freq
        = 0 := by
  refine ⟨?_, ?_, rfl⟩
  · intro records now lookback mtm sd ed bases hubs targets top_n s h
    obtain ⟨r, hr, rfl⟩ := mem_suggest_itineraries h
    simp only [qualifiedRows, if_true] at hr
    have := (List.mem_filter.mp hr).2
    exact of_decide_eq_true this
  · rw [suggest_recs2_eq]; exact List.mem_singleton_self _

/-- C3 witness: `claim3_return_to_base_filter` instantiated on the worked
example with `require_return_to_base = true`. -/
theorem claim3_return_to_base_filter_witness :
    (mkSuggestion true (Row4.mk "A" "H" "T" "H" 1 1 1 1))
      ∈ suggest_itineraries recs1 172800 30 0 none none ["A"] ["H"] ["T"] true 25
    ∧ 0 < (mkSuggestion true (Row4.mk "A" "H" "T" "H" 1 1 1 1)).return_hub_to_base_freq := by
  have hmem : (mkSuggestion true (Row4.mk "A" "H" "T" "H" 1 1 1 1))
      ∈ suggest_itineraries recs1 172800 30 0 none none ["A"] ["H"] ["T"] true 25 := by
    rw [suggest_recs1_eq]; exact List.mem_singleton_self _
  exact ⟨hmem, claim3_return_to_base_filter.1 recs1 172800 30 0 none none
    ["A"] ["H"] ["T"] 25 _ hmem⟩

/-- C10: `min_transfer_minutes`, `start_date` and `end_date` are accepted but
never read: two calls agreeing on everything else return identical lists. -/
theorem claim10_ignored_parameters :
    ∀ (records : List RouteRecord) (now : Int) (lookback_days : Nat)
      (mtm₁ mtm₂ : Int) (sd₁ sd₂ ed₁ ed₂ : Option String)
      (bases hubs targets : List String) (require_return_to_base : Bool)
      (top_n : Nat),
      suggest_itineraries records now lookback_days mtm₁ sd₁ ed₁
          bases hubs targets require_return_to_base top_n
        = suggest_itineraries records now lookback_days mtm₂ sd₂ ed₂
            bases hubs targets require_return_to_base top_n := by
  intro records now lookback mtm₁ mtm₂ sd₁ sd₂ ed₁ ed₂ bases hubs targets rrb top_n
  rfl

/-- C2 evidence: on `recs3` (bases = {A}, hubs = {H1, H2}, targets = {T},
`T→H1` observed once and `T→H2` twice) the left join on `target` produces one
result row per matching return hub, so the result holds two rows for the same
(base, hub, target) triple — not a single row carrying the max-count return
hub. -/
theorem claim2_enumerates_return_hubs :
    suggest_itineraries recs3 86400 30 0 none none ["A"] ["H1", "H2"] ["T"] false 25
      = [mkSuggestion false (Row4.mk "A" "H1" "T" "H2" 1 1 2 0),
         mkSuggestion false (Row4.mk "A" "H1" "T" "H1" 1 1 1 0)]
    ∧ (suggest_itineraries recs3 86400 30 0 none none ["A"] ["H1", "H2"] ["T"]
          false 25).map (fun s => (s.base, s.hub, s.target))
        = [("A", "H1", "T"), ("A", "H1", "T")] :=
  ⟨rfl, rfl⟩

/-- C4: legs 3 and 4 are left joins with default fill — a leg-1∩leg-2 row with
no matching `target→hub` count survives with `target_to_hub = 0` and
`return_hub` equal to the outbound hub; a row whose (return_hub, base) pair
has no `hub_to_base` count gets 0; every such row passes into the qualifying
set when `require_return_to_base` is false or its leg-4 count is positive; and
on `recs2` (no `H→A` record, requireReturnToBase = false) the single candidate
is returned with leg4 = 0 and score 3.2. -/
theorem claim4_left_join_default_fill :
    (∀ (counts : List CountRow) (bases_set hubs_set targets_set : List String)
        (m : Row12),
        m ∈ mergedBHT counts bases_set hubs_set targets_set →
        (legTargetHub counts targets_set hubs_set).filter
            (fun c => decide (c.departure_from = m.target)) = [] →
        Row3.mk m.base m.hub m.target m.hub m.base_to_hub m.hub_to_target 0
          ∈ merged3Rows counts bases_set hubs_set targets_set)
    ∧ (∀ (counts : List CountRow) (bases_set hubs_set targets_set : List String)
        (m : Row3),
        m ∈ merged3Rows counts bases_set hubs_set targets_set →
        (legHubBase counts hubs_set bases_set).filter
            (fun c => decide (c.departure_from = m.return_hub)
              && decide (c.departure_to = m.base)) = [] →
        Row4.mk m.base m.hub m.target m.return_hub
            m.base_to_hub m.hub_to_target m.target_to_hub 0
          ∈ merged4Rows counts bases_set hubs_set targets_set)
    ∧ (∀ (counts : List CountRow) (bases_set hubs_set targets_set : List String)
        (require_return_to_base : Bool) (r : Row4),
        r ∈ merged4Rows counts bases_set hubs_set targets_set →
        (require_return_to_base = false ∨ 0 < r.hub_to_base) →
        r ∈ qualifiedRows counts bases_set hubs_set targets_set require_return_to_base)
    ∧ suggest_itineraries recs2 172800 30 0 none none ["A"] ["H"] ["T"] false 25
        = [mkSuggestion false (Row4.mk "A" "H" "T" "H" 1 1 1 0)]
    ∧ (mkSuggestion false (Row4.mk "A" "H" "T" "H" 1 1 1 0)).return_hub_to_base_freq = 0
    ∧ (mkSuggestion false (Row4.mk "A" "H" "T" "H" 1 1 1 0)).score = 3.2 := by
  refine ⟨?_, ?_, ?_, suggest_recs2_eq, rfl, ?_⟩
  · intro counts bases_set hubs_set targets_set m hm hnone
    refine List.mem_flatMap.mpr ⟨m, hm, ?_⟩
    simp [hnone]
  · intro counts bases_set hubs_set targets_set m hm hnone
    refine List.mem_flatMap.mpr ⟨m, hm, ?_⟩
    simp [hnone]
  · intro counts bases_set hubs_set targets_set rrb r hr hq
    cases rrb with
    | false => simpa [qualifiedRows] using hr
    | true =>
      rcases hq with hq | hq
      · exact absurd hq (by simp)
      · simp only [qualifiedRows, if_true]
        exact List.mem_filter.mpr ⟨hr, decide_eq_true hq⟩
  · norm_num [mkSuggestion, suggestionScore]

/-- C4 witness: `claim4_left_join_default_fill` instantiated on the `recs2`
counts table, where the leg-3 and leg-4 match lists for the only candidate are
both empty. -/
theorem claim4_left_join_default_fill_witness :
    (Row12.mk "A" "H" "T" 1 1
        ∈ mergedBHT (route_counts recs2 172800 30) ["A"] ["H"] ["T"])
    ∧ ((legHubBase (route_counts recs2 172800 30) ["H"] ["A"]).filter
          (fun c => decide (c.departure_from = "H") && decide (c.departure_to = "A")) = [])
    ∧ Row4.mk "A" "H" "T" "H" 1 1 1 0
        ∈ qualifiedRows (route_counts recs2 172800 30) ["A"] ["H"] ["T"] false := by
  refine ⟨by decide, by decide, ?_⟩
  have h4 : Row4.mk "A" "H" "T" "H" 1 1 1 0
      ∈ merged4Rows (route_counts recs2 172800 30) ["A"] ["H"] ["T"] :=
    claim4_left_join_default_fill.2.1 (route_counts recs2 172800 30)
      ["A"] ["H"] ["T"] (Row3.mk "A" "H" "T" "H" 1 1 1) (by decide) (by decide)
  exact claim4_left_join_default_fill.2.2.1 (route_counts recs2 172800 30)
    ["A"] ["H"] ["T"] false _ h4 (Or.inl rfl)

/-- C5: the lookback filter keeps a record iff its timestamp is unknown or at
least `now - lookback_days` days; a record with unknown timestamp is never
removed, however small the lookback. -/
theorem claim5_lookback_filter :
    (∀ (df : List RouteRecord) (now : Int) (lookback_days : Nat) (r : RouteRecord),
        r ∈ filter_by_lookback df now lookback_days ↔
          r ∈ df ∧ (r.run_ts = none ∨
            ∃ t, r.run_ts = some t ∧ now - (lookback_days : Int) * 86400 ≤ t))
    ∧ (∀ (df : List RouteRecord) (now : Int) (lookback_days : Nat)
        (r : RouteRecord), r ∈ df → r.run_ts = none →
        r ∈ filter_by_lookback df now lookback_days) := by
  have hmain : ∀ (df : List RouteRecord) (now : Int) (lookback_days : Nat)
      (r : RouteRecord),
      r ∈ filter_by_lookback df now lookback_days ↔
        r ∈ df ∧ (r.run_ts = none ∨
          ∃ t, r.run_ts = some t ∧ now - (lookback_days : Int) * 86400 ≤ t) := by
    intro df now lookback_days r
    simp only [filter_by_lookback, List.mem_filter]
    rcases hts : r.run_ts with _ | t <;> simp [hts]
  exact ⟨hmain, fun df now lookback_days r hmem hnone =>
    (hmain df now lookback_days r).mpr ⟨hmem, Or.inl hnone⟩⟩

/-- C5 witness: `claim5_lookback_filter` on a two-record frame — a one-day
lookback and a record with unknown timestamp. -/
theorem claim5_lookback_filter_witness :
    (RouteRecord.mk "A" "H" none
        ∈ [RouteRecord.mk "A" "H" none, RouteRecord.mk "H" "T" (some 0)])
    ∧ RouteRecord.mk "A" "H" none
        ∈ filter_by_lookback
            [RouteRecord.mk "A" "H" none, RouteRecord.mk "H" "T" (some 0)]
            8640000 1 := by
  refine ⟨by decide, ?_⟩
  exact claim5_lookback_filter.2
    [RouteRecord.mk "A" "H" none, RouteRecord.mk "H" "T" (some 0)]
    8640000 1 (RouteRecord.mk "A" "H" none) (by decide) rfl

/-- C6: with empty bases, hubs or targets, or an empty leg-1∩leg-2 join, the
result is the empty list (and, the embedding being a total function, no error
is raised on this path). -/
theorem claim6_empty_inputs_empty_result :
    ∀ (records : List RouteRecord) (now : Int) (lookback_days : Nat)
      (min_transfer_minutes : Int) (start_date end_date : Option String)
      (bases hubs targets : List String) (require_return_to_base : Bool)
      (top_n : Nat),
      (bases = [] ∨ hubs = [] ∨ targets = [] ∨
        mergedBHT (route_counts records now lookback_days)
          (normSet bases) (normSet hubs) (normSet targets) = []) →
      suggest_itineraries records now lookback_days min_transfer_minutes
        start_date end_date bases hubs targets require_return_to_base top_n
        = [] := by
  intro records now lookback mtm sd ed bases hubs targets rrb top_n h
  have hm : mergedBHT (route_counts records now lookback)
      (normSet bases) (normSet hubs) (normSet targets) = [] := by
    rcases h with h | h | h | h
    · subst h
      have hbh : legBaseHub (route_counts records now lookback)
          (normSet []) (normSet hubs) = [] := by
        simp [legBaseHub, normSet, List.filter_eq_nil_iff]
      simp [mergedBHT, hbh]
    · subst h
      have hbh : legBaseHub (route_counts records now lookback)
          (normSet bases) (normSet []) = [] := by
        simp [legBaseHub, normSet, List.filter_eq_nil_iff]
      simp [mergedBHT, hbh]
    · subst h
      have hht : legHubTarget (route_counts records now lookback)
          (normSet hubs) (normSet []) = [] := by
        simp [legHubTarget, normSet, List.filter_eq_nil_iff]
      rw [mergedBHT, List.flatMap_eq_nil_iff]
      intro b _
      simp [hht]
    · exact h
  simp [suggest_itineraries, hm]

/-- C6 witness: `claim6_empty_inputs_empty_result` at the worked corpus with
an empty hub set. -/
theorem claim6_empty_inputs_empty_result_witness :
    suggest_itineraries recs1 172800 30 0 none none ["A"] [] ["T"] true 25
      = [] :=
  claim6_empty_inputs_empty_result recs1 172800 30 0 none none
    ["A"] [] ["T"] true 25 (Or.inr (Or.inl rfl))

/-- Sortedness of the sort/take/map tail of `suggest_itineraries`. -/
lemma sorted_suggest_aux (rrb : Bool) (q : List Row4) (n : Nat) :
    List.Sorted (fun a b : Suggestion => b.score ≤ a.score)
      (((List.insertionSort
            (fun a b : Row4 => scoreTenths rrb b ≤ scoreTenths rrb a) q).take
          n).map (mkSuggestion rrb)) := by
  haveI : IsTotal Row4 (fun a b : Row4 => scoreTenths rrb b ≤ scoreTenths rrb a) :=
    ⟨fun a b => le_total _ _⟩
  haveI : IsTrans Row4 (fun a b : Row4 => scoreTenths rrb b ≤ scoreTenths rrb a) :=
    ⟨fun a b c h1 h2 => le_trans h2 h1⟩
  have hs := List.sorted_insertionSort
    (fun a b : Row4 => scoreTenths rrb b ≤ scoreTenths rrb a) q
  have htake := List.Pairwise.sublist (List.take_sublist n _) hs
  exact List.Pairwise.map (mkSuggestion rrb)
    (fun a b hab => (suggestionScore_le_iff rrb b a).mpr hab) htake

/-- C7: the returned list is sorted in non-increasing score order, and a
second call with the same inputs (same corpus, same clock) returns the same
list — the embedded engine is a pure function of its inputs. -/
theorem claim7_sorted_and_deterministic :
    ∀ (records : List RouteRecord) (now : Int) (lookback_days : Nat)
      (min_transfer_minutes : Int) (start_date end_date : Option String)
      (bases hubs targets : List String) (require_return_to_base : Bool)
      (top_n : Nat),
      List.Sorted (fun a b : Suggestion => b.score ≤ a.score)
        (suggest_itineraries records now lookback_days min_transfer_minutes
          start_date end_date bases hubs targets require_return_to_base top_n)
      ∧ suggest_itineraries records now lookback_days min_transfer_minutes
          start_date end_date bases hubs targets require_return_to_base top_n
        = suggest_itineraries records now lookback_days min_transfer_minutes
            start_date end_date bases hubs targets require_return_to_base top_n := by
  intro records now lookback mtm sd ed bases hubs targets rrb top_n
  refine ⟨?_, rfl⟩
  simp only [suggest_itineraries]
  split
  · exact List.sorted_nil
  · exact sorted_suggest_aux rrb _ top_n

/-- C8: the result length is `min top_n` (number of qualifying candidates). -/
theorem claim8_result_length :
    ∀ (records : List RouteRecord) (now : Int) (lookback_days : Nat)
      (min_transfer_minutes : Int) (start_date end_date : Option String)
      (bases hubs targets : List String) (require_return_to_base : Bool)
      (top_n : Nat),
      (suggest_itineraries records now lookback_days min_transfer_minutes
          start_date end_date bases hubs targets require_return_to_base
          top_n).length
        = min top_n
            (qualifiedRows (route_counts records now lookback_days)
              (normSet bases) (normSet hubs) (normSet targets)
              require_return_to_base).length := by
  intro records now lookback mtm sd ed bases hubs targets rrb top_n
  simp only [suggest_itineraries]
  split
  next h =>
    have hm := List.isEmpty_iff.mp h
    have h3 : merged3Rows (route_counts records now lookback)
        (normSet bases) (normSet hubs) (normSet targets) = [] := by
      simp [merged3Rows, hm]
    have h4 : merged4Rows (route_counts records now lookback)
        (normSet bases) (normSet hubs) (normSet targets) = [] := by
      simp [merged4Rows, h3]
    have hq : qualifiedRows (route_counts records now lookback)
        (normSet bases) (normSet hubs) (normSet targets) rrb = [] := by
      cases rrb <;> simp [qualifiedRows, h4]
    simp [hq]
  next h =>
    simp [List.length_map, List.length_take, List.length_insertionSort]

/-- C9: loading fails with `NoDataFound` exactly when there are no CSV files
at all, with `SchemaMismatch` exactly when files exist but none parses with
both required columns, and otherwise succeeds using exactly the usable files
(silently skipping files that fail to parse or lack the columns). -/
theorem claim9_load_errors :
    (∀ files : List SourceFile,
        load_runs files = Except.error LoadError.noDataFound ↔ files = [])
    ∧ (∀ files : List SourceFile,
        load_runs files = Except.error LoadError.schemaMismatch ↔
          files ≠ [] ∧ usableFrames files = [])
    ∧ (∀ files : List SourceFile, files ≠ [] → usableFrames files ≠ [] →
        load_runs files
          = Except.ok ((((usableFrames files).map RawFrame.rows).flatten).map
              normaliseRecord)) := by
  refine ⟨?_, ?_, ?_⟩
  · intro files
    rcases files with _ | ⟨f, fs⟩
    · simp [load_runs]
    · simp only [load_runs, List.isEmpty_cons, Bool.false_eq_true, if_false]
      split <;> simp
  · intro files
    rcases files with _ | ⟨f, fs⟩
    · simp [load_runs]
    · simp only [load_runs, List.isEmpty_cons, Bool.false_eq_true, if_false]
      split
      next h => simp_all [List.isEmpty_iff]
      next h => simp_all [List.isEmpty_iff]
  · intro files h1 h2
    have hne : files.isEmpty = false := by
      simp [List.isEmpty_iff, h1]
    have hue : (usableFrames files).isEmpty = false := by
      simp [List.isEmpty_iff, h2]
    simp [load_runs, hne, hue]

/-- A directory with one usable file (alias-named city, extra column), one
unparseable file and one file lacking the required columns. -/
def filesEx : List SourceFile :=
  [some (RawFrame.mk ["departure_from", "departure_to", "data_generated"]
      [RouteRecord.mk " London Luton " "Kutaisi" none]),
   none,
   some (RawFrame.mk ["foo"] [RouteRecord.mk "X" "Y" none])]

/-- C9 witness: `claim9_load_errors` on `filesEx` — the load succeeds, skips
the two unusable files, and normalises the city names of the usable one. -/
theorem claim9_load_errors_witness :
    filesEx ≠ [] ∧ usableFrames filesEx ≠ [] ∧
      load_runs filesEx = Except.ok [RouteRecord.mk "London" "Kutaisi" none] := by
  refine ⟨by decide, by decide, ?_⟩
  rw [claim9_load_errors.2.2 filesEx (by decide) (by decide)]
  rfl
